import Mathlib

/-!
Verification of the owpm core (src/owpm.py) against its natural-language
specification.  The Python source is shallowly embedded below: pure logic
becomes Lean functions, filesystem and database state becomes explicit record
passing, network calls become function-typed inputs, and exceptions become
Except / Option results.  MD5 fingerprinting is abstracted as a function
argument, and version-constraint satisfaction (packaging.Requirement) as a
Boolean predicate argument, since both are external libraries.
-/

/-- Error outcomes of the resolution layer.  The source raises
ExceptionApiDown / ExceptionPackageNotFound from network code and
ExceptionVersionError from version selection; two constructors suffice for the
claims. -/
inductive LockErr
  | netErr
  | verErr
deriving Repr, DecidableEq

/-- The two raise sites of ExceptionVersionError inside Package.get_hash
(owpm.py lines 526-531 and 547-549); the spec names them VersionTooRecent and
VersionNotFound. -/
inductive VersionFailure
  | versionTooRecent
  | versionNotFound
deriving Repr, DecidableEq

/-- One distribution entry of the PyPI JSON metadata: only the sha256 digest is
consumed by the source (resp_json urls / releases bodies). -/
structure DistEntry where
  sha256 : String
deriving Repr, DecidableEq

/-- The part of a PyPI JSON response consumed by Package.get_hash: the urls
list of the latest version, and the releases map in the order the registry
returned it (Python dicts preserve insertion order). -/
structure PypiMeta where
  urls : List DistEntry
  releases : List (String × List DistEntry)
deriving Repr, DecidableEq

/-- A Package object (owpm.py lines 460-483): name, requirement string, dev
flag, dependency flag.  The parent-project back pointer is modelled by passing
the package list explicitly. -/
structure Pkg where
  name : String
  version_req : String
  is_dev : Bool
  is_dep : Bool
deriving Repr, DecidableEq

/-- One row of the lock table, columns (name, version, hash, is_dev, is_dep)
as created in Project.lock_proj (owpm.py line 271). -/
structure LockRow where
  name : String
  version : String
  hash : String
  is_dev : Bool
  is_dep : Bool
deriving Repr, DecidableEq

/-- The on-disk state touched by Project.lock_proj: the lockfile (none when
the path does not exist) and the lockfile_hash recorded in the .owpm manifest. -/
structure LockWorld where
  lockOnDisk : Option (List LockRow)
  manifest_hash : String
deriving Repr, DecidableEq

/-- Result of one Project.lock_proj call: the returned Boolean (smart), whether
resolution ran, the first propagated exception if any, the final disk state and
the final in-memory package list. -/
structure LockOutcome where
  smart : Bool
  resolved : Bool
  error : Option LockErr
  world : LockWorld
  packages : List Pkg
deriving Repr, DecidableEq

/-- The single-slot venv cache record stored in owpm_venv.toml and written by
Project.build_proj (owpm.py lines 382-389). -/
structure VenvRecord where
  pin : Nat
  lockfile_hash : String
  force_lock : Bool
  use_dev_deps : Bool
deriving Repr, DecidableEq

/-- Contents of the cache TOML file: none models the empty dict. -/
abbrev VenvStatus := Option VenvRecord

/-- Filesystem slot for owpm_venv.toml; none models an absent file. -/
structure CacheFs where
  toml_file : Option VenvStatus
deriving Repr, DecidableEq

/-- Observable effects of one Project.build_proj call after the lock step:
which pin was reused, whether a fresh venv was created, the (name, hash) pairs
handed to pip, the final cache record and whether the old venv was deleted. -/
structure BuildResult where
  reused_pin : Option Nat
  created_new : Bool
  installs : List (String × String)
  record_out : Option VenvRecord
  deleted_old : Bool
deriving Repr, DecidableEq

/-- In-memory Project object: save name, lockfile_hash and package list
(owpm.py lines 216-227). -/
structure ProjModel where
  name : String
  lockfile_hash : String
  packages : List Pkg
deriving Repr, DecidableEq

/-- One _nthread_lock_package thread with its program counter: phase 0 is the
SELECT check still pending, phase 1 is check done with the INSERT pending, and
phase 2 is finished (row inserted or skipped). -/
structure WriterTask where
  row : LockRow
  phase : Nat
deriving Repr, DecidableEq

/-- Model of Python str.split for a one-character separator, as used on the
requires_dist entries (the source only ever splits on a single character). -/
def split_char (sep : Char) : List Char → List (List Char)
  | [] => [[]]
  | c :: rest =>
      match split_char sep rest with
      | [] => [[]]
      | h :: t => if c = sep then [] :: h :: t else (c :: h) :: t

/-- subpackage.split(";")[0].split(" ")[0] from Package.get_subpackages
(owpm.py line 513): the bare package name of a requires_dist entry. -/
def extract_name (s : String) : String :=
  String.mk (((split_char ' ' ((split_char ';' s.data).headD [])).headD []))

/-- Package(self.parent_proj, subpkg_name, subpackage, self.is_dev, True) from
owpm.py line 516: a transitive package inherits is_dev and gets is_dep true,
keeping the whole requires_dist entry as its requirement string. -/
def sub_package (parent : Pkg) (entry : String) : Pkg :=
  { name := extract_name entry, version_req := entry
    is_dev := parent.is_dev, is_dep := true }

/-- Package.get_subpackages (owpm.py lines 500-518): fetch requires_dist for
the package name and build one new Pkg per entry.  The expand argument stands
for the network fetch; a None requires_dist is modelled by an empty list. -/
def get_subpackages_model (expand : String → Except LockErr (List String))
    (p : Pkg) : Except LockErr (List Pkg) :=
  (expand p.name).map (List.map (sub_package p))

/-- The dependency-expansion loop of Project.lock_proj (owpm.py lines 280-282):
iterate over a snapshot of self.packages taken once, appending each expanded
package list of sub packages to the live list.  Returns the first raised
error, if any, together with the package list at that moment. -/
def expand_packages_go (expand : String → Except LockErr (List String))
    (acc : List Pkg) : List Pkg → Option LockErr × List Pkg
  | [] => (none, acc)
  | p :: rest =>
      match get_subpackages_model expand p with
      | .error e => (some e, acc)
      | .ok subs => expand_packages_go expand (acc ++ subs) rest

/-- Snapshot-based expansion entry point: the loop runs over packages.copy()
while appending to packages itself. -/
def expand_packages (expand : String → Except LockErr (List String))
    (roots : List Pkg) : Option LockErr × List Pkg :=
  expand_packages_go expand roots roots

/-- The sub packages one root contributes when its expansion succeeds; an
erroring expansion contributes nothing. -/
def ok_subs (expand : String → Except LockErr (List String)) (p : Pkg) :
    List Pkg :=
  match get_subpackages_model expand p with
  | .ok subs => subs
  | .error _ => []

/-- Resolver of section 4.2 of the spec, modelled from the spec words for
comparison with expand_packages: frontier expansion with a visited set keyed
by package name, recursing until the frontier is empty (fuel bounds the
recursion; it is not part of the spec). -/
def spec_resolve_names (reg : String → List String) :
    Nat → List String → List String → List String
  | 0, visited, _ => visited
  | _ + 1, visited, [] => visited
  | fuel + 1, visited, n :: frontier =>
      if n ∈ visited then spec_resolve_names reg fuel visited frontier
      else spec_resolve_names reg fuel (visited ++ [n]) (frontier ++ reg n)

/-- content_body[0] digest access; the default is never reached because the
source guards with len(content_body) > 0. -/
def first_dist_hash (body : List DistEntry) : String :=
  (body.headD { sha256 := "" }).sha256

/-- The for loop of Package.get_hash over resp_json releases (owpm.py lines
535-549): first version, in returned order, that satisfies the parsed
requirement and has a nonempty body wins; otherwise ExceptionVersionError. -/
def get_hash_go (sat : String → Bool) :
    List (String × List DistEntry) → Except VersionFailure String
  | [] => .error .versionNotFound
  | (ver, body) :: rest =>
      if sat ver && decide (0 < body.length) then .ok (first_dist_hash body)
      else get_hash_go sat rest

/-- Package.get_hash (owpm.py lines 520-549).  sat models membership of the
parsed version in Requirement(version_req).specifier; the requirement is
assumed to parse (the source would raise InvalidRequirement otherwise). -/
def get_hash (sat : String → Bool) (version_req : String) (meta : PypiMeta) :
    Except VersionFailure String :=
  if version_req = "*" then
    match meta.urls with
    | [] => .error .versionTooRecent
    | d :: _ => .ok d.sha256
  else
    get_hash_go sat meta.releases

/-- The per-package lock threads of owpm.py lines 285-294 run sequentially:
each Package._nthread_lock_package computes its hash (a raising thread is
silently lost, so its row is skipped), checks whether the hash is already in
the lock table and inserts otherwise (owpm.py lines 551-575).  The interleaved
behaviour of the same threads is modelled separately by run_sched. -/
def thread_lock_all (hashOf : Pkg → Except LockErr String)
    (pkgs : List Pkg) (db : List LockRow) : List LockRow :=
  pkgs.foldl
    (fun db p =>
      match hashOf p with
      | .error _ => db
      | .ok h =>
          if db.any (fun r => r.hash == h) then db
          else db ++ [{ name := p.name, version := p.version_req, hash := h
                        is_dev := p.is_dev, is_dep := p.is_dep }])
    db

/-- The smart-lock guard of Project.lock_proj (owpm.py line 263):
not force_lock and lock_path.exists() and self._compare_lock_hash(lock_path),
where _compare_lock_hash re-hashes the on-disk lockfile and compares it to the
manifest lockfile_hash (owpm.py lines 426-429). -/
def smart_cond (hashL : List LockRow → String) (force : Bool)
    (w : LockWorld) : Bool :=
  !force &&
    (match w.lockOnDisk with
     | none => false
     | some c => decide (hashL c = w.manifest_hash))

/-- Project.lock_proj (owpm.py lines 256-298).  Steps: smart-lock check; delete
the old lockfile and create the fresh empty lock table on disk; expand
dependencies over the package snapshot (the first exception propagates,
leaving the fresh empty lockfile behind); start the per-package lock threads.
The source then sleeps len(packages)/20 seconds instead of joining the
threads (owpm.py lines 291-294), so when _update_lockfile_hash records the
manifest fingerprint only the threads that happen to have finished have
committed: completed counts those threads (a take of the serialized order),
and the remaining threads commit their rows to the lockfile only after the
fingerprint is taken, so the recorded fingerprint need not match the final
on-disk table.  The world field holds the disk state after every thread has
settled. -/
def lock_proj (hashL : List LockRow → String)
    (expand : String → Except LockErr (List String))
    (hashOf : Pkg → Except LockErr String) (completed : Nat)
    (force : Bool) (pkgs : List Pkg) (w : LockWorld) : LockOutcome :=
  if smart_cond hashL force w then
    { smart := true, resolved := false, error := none
      world := w, packages := pkgs }
  else
    match expand_packages expand pkgs with
    | (some e, pkgs2) =>
        { smart := false, resolved := true, error := some e
          world := { lockOnDisk := some [], manifest_hash := w.manifest_hash }
          packages := pkgs2 }
    | (none, pkgs2) =>
        { smart := false, resolved := true, error := none
          world := { lockOnDisk := some (thread_lock_all hashOf pkgs2 [])
                     manifest_hash :=
                       hashL (thread_lock_all hashOf (pkgs2.take completed) []) }
          packages := pkgs2 }

/-- The two SELECT queries of Project.build_proj (owpm.py lines 347-354):
WHERE is_dep=0 when use_dev_deps is false, WHERE is_dev=0 AND is_dep=0 when it
is true; SQLite returns rows in insertion order. -/
def build_select (use_dev_deps : Bool) (rows : List LockRow) : List LockRow :=
  if use_dev_deps = false then rows.filter (fun r => !r.is_dep)
  else rows.filter (fun r => !r.is_dev && !r.is_dep)

/-- The install loop of Project.build_proj (owpm.py lines 357-378): one pip
invocation per selected row, pinned name --hash=sha256:hash. -/
def install_calls (use_dev_deps : Bool) (rows : List LockRow) :
    List (String × String) :=
  (build_select use_dev_deps rows).map (fun r => (r.name, r.hash))

/-- The rebuild arm of Project.build_proj: create a venv, install the selected
rows, overwrite the cache record with the new pin and the flags used. -/
def build_fresh (cur_hash : String) (force udd : Bool) (rows : List LockRow)
    (newPin : Nat) (deleted : Bool) : BuildResult :=
  { reused_pin := none, created_new := true
    installs := install_calls udd rows
    record_out := some { pin := newPin, lockfile_hash := cur_hash
                         force_lock := force, use_dev_deps := udd }
    deleted_old := deleted }

/-- The cache decision of Project.build_proj after the lock step (owpm.py
lines 311-338): delete the old venv when the recorded fingerprint differs
(which also removes its directory), rebuild when the venv directory is
missing, reuse untouched when fingerprint and both flags match exactly,
rebuild otherwise.  cur_hash is the manifest fingerprint after lock_proj. -/
def build_proj_after_lock (cur_hash : String) (force udd : Bool)
    (venv_info : Option VenvRecord) (envExists : Nat → Bool)
    (rows : List LockRow) (newPin : Nat) : BuildResult :=
  match venv_info with
  | none => build_fresh cur_hash force udd rows newPin false
  | some info =>
      let deleted : Bool := !(info.lockfile_hash == cur_hash)
      let still_there : Bool := envExists info.pin && !deleted
      if !still_there then build_fresh cur_hash force udd rows newPin deleted
      else if info.force_lock == force && info.use_dev_deps == udd
              && info.lockfile_hash == cur_hash then
        { reused_pin := some info.pin, created_new := false, installs := []
          record_out := some info, deleted_old := deleted }
      else build_fresh cur_hash force udd rows newPin deleted

/-- One scheduler step of a _nthread_lock_package thread against the shared
lock table (owpm.py lines 551-575): phase 0 runs the SELECT by hash and
remembers its verdict, phase 1 runs the INSERT decided earlier, phase 2 is
done.  The SELECT and the INSERT are separate steps because each thread uses
its own connection and no transaction spans the pair. -/
def writer_step (db : List LockRow) (w : WriterTask) :
    List LockRow × WriterTask :=
  if w.phase = 0 then
    if db.any (fun r => r.hash == w.row.hash) then (db, { w with phase := 2 })
    else (db, { w with phase := 1 })
  else if w.phase = 1 then (db ++ [w.row], { w with phase := 2 })
  else (db, w)

/-- Run the writer threads under an explicit interleaving: each schedule entry
names the thread that executes its next step. -/
def run_sched (ws : List WriterTask) (db : List LockRow) :
    List Nat → List LockRow × List WriterTask
  | [] => (db, ws)
  | i :: rest =>
      match ws.get? i with
      | none => run_sched ws db rest
      | some w =>
          let s := writer_step db w
          run_sched (ws.set i s.2) s.1 rest

/-- The probe loop of OwpmVenv._get_pin (owpm.py lines 203-210): up to 45
draws of random.randint(0, 999); the first draw whose venv path does not exist
is returned; falling out of the loop returns Python None, modelled as none. -/
def get_pin_go (draws : Nat → Nat) (pathExists : Nat → Bool) :
    Nat → Nat → Option Nat
  | _, 0 => none
  | i, n + 1 =>
      if pathExists (draws i % 1000) then get_pin_go draws pathExists (i + 1) n
      else some (draws i % 1000)

/-- OwpmVenv._get_pin with the random stream made explicit. -/
def get_pin (draws : Nat → Nat) (pathExists : Nat → Bool) : Option Nat :=
  get_pin_go draws pathExists 0 45

/-- Package.__init__ (owpm.py lines 465-483): append the new package to the
parent project and clear the manifest lockfile_hash when should_rem_hash is
set. -/
def package_init (proj : ProjModel) (name version_req : String)
    (is_dev is_dep should_rem_hash : Bool) : ProjModel :=
  let proj2 := { proj with
    packages := proj.packages ++
      [{ name := name, version_req := version_req
         is_dev := is_dev, is_dep := is_dep }] }
  if should_rem_hash then { proj2 with lockfile_hash := "" } else proj2

/-- The add command loop (owpm.py lines 722-729): each requested (name,
version) pair becomes Package(proj, name, version, dev) with the default
is_dep false and should_rem_hash true. -/
def add_packages (proj : ProjModel) (entries : List (String × String))
    (dev : Bool) : ProjModel :=
  entries.foldl (fun pr e => package_init pr e.1 e.2 dev false true) proj

/-- self.packages.remove(package) for each entry: Python list.remove drops the
first equal element and raises ValueError when the element is absent. -/
def remove_list : List Pkg → List Pkg → Except String (List Pkg)
  | l, [] => .ok l
  | l, p :: rest =>
      if p ∈ l then remove_list (l.erase p) rest
      else .error "ValueError"

/-- Project.remove_packages (owpm.py lines 393-407): remove every listed
package, then clear lockfile_hash and save.  The type check on [Package] is
enforced by the Lean types. -/
def remove_packages (proj : ProjModel) (to_remove : List Pkg) :
    Except String ProjModel :=
  match remove_list proj.packages to_remove with
  | .error e => .error e
  | .ok rest =>
      .ok { proj with packages := rest, lockfile_hash := "" }

/-- _set_venv_status (owpm.py lines 659-663): overwrite owpm_venv.toml with
the given dict. -/
def set_venv_status (fs : CacheFs) (arg : VenvStatus) : CacheFs :=
  { toml_file := some arg }

/-- _get_venv_status (owpm.py lines 666-674): read the cache record if the
file exists, otherwise write the empty record to disk and return it. -/
def get_venv_status (fs : CacheFs) : VenvStatus × CacheFs :=
  match fs.toml_file with
  | some st => (st, fs)
  | none => (none, set_venv_status fs none)

/-! Concrete instances used by counterexamples and witnesses. -/

/-- Fingerprint function instance for witnesses: one letter per row, so two
lockfiles of different length fingerprint differently. -/
def hashLEx : List LockRow → String :=
  fun rows => String.mk (List.replicate rows.length 'x')

/-- Registry behaviour: a requires b, b requires c, everything else is a
leaf. -/
def expandEx : String → Except LockErr (List String) :=
  fun n => if n = "a" then .ok ["b"] else if n = "b" then .ok ["c"] else .ok []

/-- Same registry graph as expandEx with the names already extracted, for the
spec-side resolver. -/
def regEx : String → List String :=
  fun n => if n = "a" then ["b"] else if n = "b" then ["c"] else []

/-- Registry behaviour whose fetch for a fails. -/
def expandErrEx : String → Except LockErr (List String) :=
  fun n => if n = "a" then .error .netErr else .ok []

/-- Hash resolution used by witnesses: every package resolves to its name. -/
def hashOfEx : Pkg → Except LockErr String :=
  fun p => .ok p.name

/-- Registry behaviour where every package is a leaf. -/
def expandLeafEx : String → Except LockErr (List String) :=
  fun _ => .ok []

/-- World of a never-locked project: no lockfile and an empty fingerprint. -/
def wEmptyEx : LockWorld :=
  { lockOnDisk := none, manifest_hash := "" }

/-- Root package a. -/
def pkgAEx : Pkg := { name := "a", version_req := "*", is_dev := false, is_dep := false }

/-- A previously locked row. -/
def oldRowEx : LockRow :=
  { name := "old", version := "*", hash := "ho", is_dev := false, is_dep := false }

/-- A committed row matching hashLEx. -/
def rowEx : LockRow :=
  { name := "requests", version := "*", hash := "hr", is_dev := false, is_dep := false }

/-- World whose on-disk lockfile matches the recorded fingerprint. -/
def wLockedEx : LockWorld :=
  { lockOnDisk := some [rowEx], manifest_hash := hashLEx [rowEx] }

/-- World holding a stale lockfile: the recorded fingerprint does not match. -/
def wStaleEx : LockWorld :=
  { lockOnDisk := some [oldRowEx], manifest_hash := "stale" }

/-- A dev root row of the lock table. -/
def dev_root_row : LockRow :=
  { name := "black", version := "*", hash := "h1", is_dev := true, is_dep := false }

/-- A transitive dependency row of the lock table. -/
def dep_row : LockRow :=
  { name := "idna", version := ">=2", hash := "h2", is_dev := false, is_dep := true }

/-- Satisfaction verdicts of the parsed constraint >=7.0,<8.0 on the versions
of metaEx. -/
def satEx : String → Bool := fun v => v == "7.4"

/-- Registry metadata with versions 6.0 (no match) and 7.4 (match, hash HX). -/
def metaEx : PypiMeta :=
  { urls := [{ sha256 := "HU" }]
    releases := [("6.0", [{ sha256 := "H6" }]), ("7.4", [{ sha256 := "HX" }])] }

/-- Cache record naming pin 5 with fingerprint f, no force, dev deps flag. -/
def infoEx : VenvRecord :=
  { pin := 5, lockfile_hash := "f", force_lock := false, use_dev_deps := true }

/-- First writer thread racing on hash h. -/
def writer0Ex : WriterTask :=
  { row := { name := "p0", version := "*", hash := "h", is_dev := false, is_dep := false }
    phase := 0 }

/-- Second writer thread racing on the same hash h. -/
def writer1Ex : WriterTask :=
  { row := { name := "p1", version := "*", hash := "h", is_dev := false, is_dep := false }
    phase := 0 }

/-- A project with a recorded fingerprint and one package. -/
def projEx : ProjModel :=
  { name := "demo", lockfile_hash := "abc", packages := [pkgAEx] }

/-- projEx after removing nothing: the fingerprint is still cleared. -/
def projRmEx : ProjModel :=
  { name := "demo", lockfile_hash := "", packages := [pkgAEx] }

/-! Theorems.  Each claim of the specification is settled below; helper lemmas
come right before the claim theorem using them. -/

/-- C1 counterexample: with useDevDeps = true the build drops a dev root row
and a transitive row entirely, and with useDevDeps = false it installs the dev
root row — the opposite of the claimed selection. -/
theorem build_select_inverted_cex :
    (build_select true [dev_root_row, dep_row] = [])
  ∧ (build_select false [dev_root_row, dep_row] = [dev_root_row]) :=
  ⟨by decide, by decide⟩

/-- C1 (amended): a lock row reaches the installer iff it is a root row
(is_dep false) and, when use_dev_deps is true, additionally a non-dev row;
with use_dev_deps false all root rows including dev ones are installed, and
transitive rows are never installed. -/
theorem build_select_root_rows (u : Bool) (r : LockRow) (rows : List LockRow) :
    r ∈ build_select u rows ↔
      r ∈ rows ∧ r.is_dep = false ∧ (u = false ∨ r.is_dev = false) := by
  cases u <;> simp [build_select, List.mem_filter] <;> tauto

/-- C4 counterexample: with a registry where a requires b and b requires c,
the expansion pass over root a produces only the names a and b: the fetched
sub-requirement b is never itself expanded, so c is missing, although the
spec-side resolver with a visited set reaches c; and a duplicated root is
expanded twice, so a name is not expanded at most once per pass. -/
theorem expand_packages_shallow_cex :
    ((expand_packages expandEx [pkgAEx]).2.map Pkg.name = ["a", "b"])
  ∧ ("c" ∈ spec_resolve_names regEx 10 [] ["a"])
  ∧ ("c" ∉ (expand_packages expandEx [pkgAEx]).2.map Pkg.name)
  ∧ ((expand_packages expandEx [pkgAEx, pkgAEx]).2.map Pkg.name
      = ["a", "a", "b", "b"]) :=
  ⟨by decide, by decide, by decide, by decide⟩

/-- Accumulator form of the one-level expansion lemma. -/
theorem expand_packages_go_ok (expand : String → Except LockErr (List String))
    (l : List Pkg) : ∀ acc, (expand_packages_go expand acc l).1 = none →
      (expand_packages_go expand acc l).2 = acc ++ l.bind (ok_subs expand) := by
  induction l with
  | nil => intro acc _; simp [expand_packages_go]
  | cons p rest ih =>
      intro acc h
      cases he : get_subpackages_model expand p with
      | error e => simp [expand_packages_go, he] at h
      | ok subs =>
          have h2 : (expand_packages_go expand (acc ++ subs) rest).1 = none := by
            simpa [expand_packages_go, he] using h
          simp [expand_packages_go, he, ih (acc ++ subs) h2, ok_subs,
            List.cons_bind, List.append_assoc]

/-- C4 (amended): the resolution pass is a single-level expansion of the
snapshot of the package list taken when the loop starts — when no fetch
fails, the final package list is the snapshot followed by each snapshot
entry's direct sub packages, in order; entries added during the pass are
never expanded, and every snapshot entry (including duplicate names) is
expanded exactly once, which is why the pass terminates. -/
theorem expand_packages_one_level
    (expand : String → Except LockErr (List String)) (roots : List Pkg)
    (h : (expand_packages expand roots).1 = none) :
    (expand_packages expand roots).2 = roots ++ roots.bind (ok_subs expand) :=
  expand_packages_go_ok expand roots roots h

/-- Witness for expand_packages_one_level at the concrete registry expandEx. -/
theorem expand_packages_one_level_witness :
    ((expand_packages expandEx [pkgAEx]).1 = none)
  ∧ (expand_packages expandEx [pkgAEx]).2
      = [pkgAEx] ++ [pkgAEx].bind (ok_subs expandEx) :=
  ⟨by decide, expand_packages_one_level expandEx [pkgAEx] (by decide)⟩

/-- The release loop of get_hash returns the first entry, in list order, whose
version satisfies the constraint and whose body is nonempty. -/
theorem get_hash_go_find (sat : String → Bool) :
    ∀ l : List (String × List DistEntry),
      get_hash_go sat l =
        match l.find? (fun p => sat p.1 && decide (0 < p.2.length)) with
        | some p => .ok (first_dist_hash p.2)
        | none => .error .versionNotFound := by
  intro l
  induction l with
  | nil => rfl
  | cons p rest ih =>
      obtain ⟨ver, body⟩ := p
      by_cases hp : (sat ver && decide (0 < body.length)) = true
      · simp [get_hash_go, List.find?_cons_of_pos, hp]
      · simp [get_hash_go, List.find?_cons_of_neg, hp, ih]

/-- C5: for a non-wildcard requirement, distribution selection returns the
first distribution hash of the first metadata version, in the order the
registry returned them, that satisfies the constraint and has at least one
distribution, and fails with VersionNotFound when no version does; for the
wildcard requirement it returns the first urls distribution hash and fails
with VersionTooRecent when urls is empty. -/
theorem get_hash_first_match (sat : String → Bool) (version_req : String)
    (meta : PypiMeta) (h : version_req ≠ "*") :
    (get_hash sat version_req meta =
       match meta.releases.find? (fun p => sat p.1 && decide (0 < p.2.length)) with
       | some p => .ok (first_dist_hash p.2)
       | none => .error .versionNotFound)
  ∧ (get_hash sat "*" meta =
       match meta.urls with
       | [] => .error VersionFailure.versionTooRecent
       | d :: _ => .ok d.sha256) := by
  constructor
  · rw [show get_hash sat version_req meta = get_hash_go sat meta.releases by
      simp [get_hash, h]]
    exact get_hash_go_find sat meta.releases
  · simp [get_hash]

/-- Witness for get_hash_first_match on the constrained-resolution scenario of
the spec: versions 6.0 (no match) and 7.4 (match, hash HX). -/
theorem get_hash_first_match_witness :
    ((">=7.0,<8.0" : String) ≠ "*")
  ∧ get_hash satEx ">=7.0,<8.0" metaEx = .ok "HX" :=
  ⟨by decide,
   (get_hash_first_match satEx ">=7.0,<8.0" metaEx (by decide)).1.trans (by rfl)⟩

/-- C7: two lock threads carrying the same content hash, interleaved so that
both run their SELECT check before either INSERT, both insert — the committed
table holds two rows for one hash even though every task ran to completion;
the same two threads scheduled sequentially insert exactly once. -/
theorem lock_race_duplicate_rows :
    (((run_sched [writer0Ex, writer1Ex] [] [0, 1, 0, 1]).1.countP
        (fun r => r.hash == "h")) = 2)
  ∧ (∀ t ∈ (run_sched [writer0Ex, writer1Ex] [] [0, 1, 0, 1]).2, t.phase = 2)
  ∧ (((run_sched [writer0Ex, writer1Ex] [] [0, 0, 1, 1]).1.countP
        (fun r => r.hash == "h")) = 1) :=
  ⟨by decide, by decide, by decide⟩

/-- C8: when every probed path exists the pin allocator returns Python None
after its 45 draws instead of raising; when some draw is free it returns the
first free pin. -/
theorem get_pin_exhaustion_returns_none :
    (get_pin (fun i => i) (fun _ => true) = none)
  ∧ (get_pin (fun i => i) (fun p => decide (p < 3)) = some 3) :=
  ⟨by decide, by decide⟩

/-- C10: reading the venv cache record always leaves the record file on disk —
when the file is absent the read itself writes the empty record and returns
it. -/
theorem get_venv_status_writes_record :
    (∀ fs : CacheFs, ((get_venv_status fs).2).toml_file.isSome = true)
  ∧ (get_venv_status { toml_file := none } = (none, { toml_file := some none })) := by
  constructor
  · intro fs
    obtain ⟨tf⟩ := fs
    cases tf <;> rfl
  · rfl

/-- The Boolean returned by lock_proj is exactly the smart-lock guard. -/
theorem lock_proj_smart_eq (hashL : List LockRow → String)
    (expand : String → Except LockErr (List String))
    (hashOf : Pkg → Except LockErr String) (completed : Nat)
    (force : Bool) (pkgs : List Pkg) (w : LockWorld) :
    (lock_proj hashL expand hashOf completed force pkgs w).smart
      = smart_cond hashL force w := by
  cases hsc : smart_cond hashL force w
  · rcases hp : expand_packages expand pkgs with ⟨o, pkgs2⟩
    cases o <;> simp [lock_proj, hsc, hp]
  · simp [lock_proj, hsc]

/-- The smart-lock guard holds iff no force was requested, the lockfile
exists, and its fresh hash equals the recorded manifest fingerprint. -/
theorem smart_cond_iff (hashL : List LockRow → String) (force : Bool)
    (w : LockWorld) :
    smart_cond hashL force w = true ↔
      force = false ∧
        ∃ c, w.lockOnDisk = some c ∧ hashL c = w.manifest_hash := by
  cases force <;> cases hw : w.lockOnDisk <;> simp [smart_cond, hw]

/-- When the guard holds lock_proj changes nothing and skips resolution. -/
theorem lock_proj_smart_run (hashL : List LockRow → String)
    (expand : String → Except LockErr (List String))
    (hashOf : Pkg → Except LockErr String) (completed : Nat)
    (force : Bool) (pkgs : List Pkg) (w : LockWorld)
    (hs : smart_cond hashL force w = true) :
    lock_proj hashL expand hashOf completed force pkgs w =
      { smart := true, resolved := false, error := none
        world := w, packages := pkgs } := by
  simp [lock_proj, hs]

/-- After an error-free unforced lock in which every lock thread committed
before the sleep-based wait expired, the smart-lock guard holds on the
resulting world: the stored fingerprint is the hash of the full table. -/
theorem lock_proj_post_cond (hashL : List LockRow → String)
    (expand : String → Except LockErr (List String))
    (hashOf : Pkg → Except LockErr String) (completed : Nat)
    (pkgs : List Pkg) (w : LockWorld)
    (hall : ((expand_packages expand pkgs).2).length ≤ completed)
    (h : (lock_proj hashL expand hashOf completed false pkgs w).error = none) :
    smart_cond hashL false
      ((lock_proj hashL expand hashOf completed false pkgs w).world) = true := by
  cases hsc : smart_cond hashL false w
  · rcases hp : expand_packages expand pkgs with ⟨o, pkgs2⟩
    cases o with
    | none =>
        rw [hp] at hall
        have htake : pkgs2.take completed = pkgs2 :=
          List.take_of_length_le hall
        have hrun : lock_proj hashL expand hashOf completed false pkgs w =
            { smart := false, resolved := true, error := none
              world := { lockOnDisk := some (thread_lock_all hashOf pkgs2 [])
                         manifest_hash := hashL (thread_lock_all hashOf pkgs2 []) }
              packages := pkgs2 } := by
          simp [lock_proj, hsc, hp, htake]
        rw [hrun]
        simp [smart_cond]
    | some e => simp [lock_proj, hsc, hp] at h
  · rw [lock_proj_smart_run hashL expand hashOf completed false pkgs w hsc]
    exact hsc

/-- C2 counterexample: on a never-locked project with one root package, a
first unforced lock whose only lock thread commits after the sleep-based wait
expires (completed = 0) runs the lock and succeeds, yet records the
fingerprint of the still-empty lockfile; the settled on-disk table hashes
differently, so a second unforced lock on the unchanged manifest is not smart
— it returns false, against the claimed idempotence. -/
theorem lock_proj_idempotence_cex :
    ((lock_proj hashLEx expandLeafEx hashOfEx 0 false [pkgAEx] wEmptyEx).smart
        = false)
  ∧ ((lock_proj hashLEx expandLeafEx hashOfEx 0 false [pkgAEx] wEmptyEx).error
        = none)
  ∧ ((lock_proj hashLEx expandLeafEx hashOfEx 0 false [pkgAEx]
        wEmptyEx).world.manifest_hash = "")
  ∧ ((lock_proj hashLEx expandLeafEx hashOfEx 0 false [pkgAEx]
        wEmptyEx).world.lockOnDisk.map hashLEx = some "x")
  ∧ ((lock_proj hashLEx expandLeafEx hashOfEx 0 false
        (lock_proj hashLEx expandLeafEx hashOfEx 0 false [pkgAEx]
          wEmptyEx).packages
        (lock_proj hashLEx expandLeafEx hashOfEx 0 false [pkgAEx]
          wEmptyEx).world).smart = false) :=
  ⟨by decide, by decide, by decide, by decide, by decide⟩

/-- C2 (amended): lock_proj returns true exactly when a lockfile exists whose
fresh fingerprint equals the recorded manifest fingerprint and no force was
requested; resolution runs exactly when the result is not smart, and a smart
lock leaves the world untouched.  Because the source sleeps instead of
joining its lock threads, idempotence only holds for runs in which every lock
thread committed before the wait expired (completed covers the whole expanded
list): then a second unforced lock is smart with the fingerprint unchanged. -/
theorem lock_proj_smart_lock (hashL : List LockRow → String)
    (expand : String → Except LockErr (List String))
    (hashOf : Pkg → Except LockErr String) (completed completed2 : Nat)
    (force : Bool) (pkgs : List Pkg) (w : LockWorld) :
    ((lock_proj hashL expand hashOf completed force pkgs w).smart = true ↔
       force = false ∧
         ∃ c, w.lockOnDisk = some c ∧ hashL c = w.manifest_hash)
  ∧ ((lock_proj hashL expand hashOf completed force pkgs w).resolved
       = !(lock_proj hashL expand hashOf completed force pkgs w).smart)
  ∧ ((lock_proj hashL expand hashOf completed force pkgs w).smart = true →
       (lock_proj hashL expand hashOf completed force pkgs w).world = w)
  ∧ (((expand_packages expand pkgs).2).length ≤ completed →
     (lock_proj hashL expand hashOf completed false pkgs w).error = none →
       (lock_proj hashL expand hashOf completed2 false
           (lock_proj hashL expand hashOf completed false pkgs w).packages
           (lock_proj hashL expand hashOf completed false pkgs w).world).smart
         = true
     ∧ (lock_proj hashL expand hashOf completed2 false
           (lock_proj hashL expand hashOf completed false pkgs w).packages
           (lock_proj hashL expand hashOf completed false pkgs w).world
         ).world.manifest_hash
         = (lock_proj hashL expand hashOf completed false pkgs
             w).world.manifest_hash) := by
  refine ⟨?_, ?_, ?_, ?_⟩
  · rw [lock_proj_smart_eq]
    exact smart_cond_iff hashL force w
  · cases hsc : smart_cond hashL force w
    · rcases hp : expand_packages expand pkgs with ⟨o, pkgs2⟩
      cases o <;> simp [lock_proj, hsc, hp]
    · simp [lock_proj, hsc]
  · intro hsm
    rw [lock_proj_smart_eq] at hsm
    rw [lock_proj_smart_run hashL expand hashOf completed force pkgs w hsm]
  · intro hall herr
    have hpost := lock_proj_post_cond hashL expand hashOf completed pkgs w hall herr
    rw [lock_proj_smart_run hashL expand hashOf completed2 false _ _ hpost]
    exact ⟨rfl, rfl⟩

/-- Witness for lock_proj_smart_lock on a world whose lockfile matches the
recorded fingerprint: the lock is smart, changes nothing, and relocking is
smart again (no packages, so every thread trivially completed in time). -/
theorem lock_proj_smart_lock_witness :
    ((lock_proj hashLEx expandEx hashOfEx 0 false [] wLockedEx).world
        = wLockedEx)
  ∧ ((lock_proj hashLEx expandEx hashOfEx 0 false
        (lock_proj hashLEx expandEx hashOfEx 0 false [] wLockedEx).packages
        (lock_proj hashLEx expandEx hashOfEx 0 false [] wLockedEx).world).smart
      = true) :=
  ⟨(lock_proj_smart_lock hashLEx expandEx hashOfEx 0 0 false [] wLockedEx).2.2.1
     (by decide),
   ((lock_proj_smart_lock hashLEx expandEx hashOfEx 0 0 false [] wLockedEx).2.2.2
     (by decide) (by decide)).1⟩

/-- C3 counterexample: with a stale lockfile on disk, a lock run whose only
root fails to expand surfaces the error, yet the old lockfile is gone and a
freshly created empty lockfile remains on disk — the on-disk state is not as
if the operation never started. -/
theorem lock_proj_error_leaves_lockfile_cex :
    ((lock_proj hashLEx expandErrEx hashOfEx 0 false [pkgAEx] wStaleEx).error
        = some LockErr.netErr)
  ∧ ((lock_proj hashLEx expandErrEx hashOfEx 0 false [pkgAEx]
        wStaleEx).world.lockOnDisk = some [])
  ∧ (wStaleEx.lockOnDisk = some [oldRowEx])
  ∧ ((lock_proj hashLEx expandErrEx hashOfEx 0 false [pkgAEx]
        wStaleEx).world.lockOnDisk ≠ wStaleEx.lockOnDisk) :=
  ⟨by decide, by decide, by decide, by decide⟩

/-- C3 (amended): when the smart-lock guard fails and some root package's
expansion raises, lock_proj surfaces that first error unmodified, but on disk
the previous lockfile has already been deleted and the freshly created empty
lock table remains; the manifest fingerprint is left as it was. -/
theorem lock_proj_error_state (hashL : List LockRow → String)
    (expand : String → Except LockErr (List String))
    (hashOf : Pkg → Except LockErr String) (completed : Nat)
    (force : Bool) (pkgs : List Pkg) (w : LockWorld) (e : LockErr)
    (hs : smart_cond hashL force w = false)
    (he : (expand_packages expand pkgs).1 = some e) :
    (lock_proj hashL expand hashOf completed force pkgs w).error = some e
  ∧ (lock_proj hashL expand hashOf completed force pkgs w).world.lockOnDisk
      = some []
  ∧ (lock_proj hashL expand hashOf completed force pkgs w).world.manifest_hash
      = w.manifest_hash := by
  rcases hp : expand_packages expand pkgs with ⟨o, pkgs2⟩
  rw [hp] at he
  simp only at he
  subst he
  simp [lock_proj, hs, hp]

/-- Witness for lock_proj_error_state: a forced lock whose root a fails. -/
theorem lock_proj_error_state_witness :
    (smart_cond hashLEx true wStaleEx = false)
  ∧ ((expand_packages expandErrEx [pkgAEx]).1 = some LockErr.netErr)
  ∧ ((lock_proj hashLEx expandErrEx hashOfEx 0 true [pkgAEx]
        wStaleEx).world.lockOnDisk = some []) :=
  ⟨by decide, by decide,
   (lock_proj_error_state hashLEx expandErrEx hashOfEx 0 true [pkgAEx] wStaleEx
      LockErr.netErr (by decide) (by decide)).2.1⟩

/-- C6: when a cache record exists whose fingerprint equals the manifest's
current fingerprint, whose stored flags equal the requested flags exactly,
and whose venv directory exists, the build reuses that venv untouched: no
install calls, no new venv, no deletion, and the record is kept as is. -/
theorem build_cache_reuse (cur_hash : String) (force udd : Bool)
    (info : VenvRecord) (envExists : Nat → Bool) (rows : List LockRow)
    (newPin : Nat)
    (hh : info.lockfile_hash = cur_hash) (hf : info.force_lock = force)
    (hu : info.use_dev_deps = udd) (he : envExists info.pin = true) :
    build_proj_after_lock cur_hash force udd (some info) envExists rows newPin
      = { reused_pin := some info.pin, created_new := false, installs := []
          record_out := some info, deleted_old := false } := by
  subst hh hf hu
  simp [build_proj_after_lock, he]

/-- Witness for build_cache_reuse at a concrete record and build request. -/
theorem build_cache_reuse_witness :
    build_proj_after_lock "f" false true (some infoEx) (fun _ => true) [] 9
      = { reused_pin := some 5, created_new := false, installs := []
          record_out := some infoEx, deleted_old := false } :=
  build_cache_reuse "f" false true infoEx (fun _ => true) [] 9 rfl rfl rfl rfl

/-- Adding at least one package through the add path always ends with a
cleared fingerprint: the last Package constructor runs with should_rem_hash
set. -/
theorem add_packages_cons_hash (dev : Bool) (es : List (String × String)) :
    ∀ (proj : ProjModel) (e : String × String),
      (add_packages proj (e :: es) dev).lockfile_hash = "" := by
  induction es with
  | nil => intro proj e; rfl
  | cons e2 es ih =>
      intro proj e
      exact ih (package_init proj e.1 e.2 dev false true) e2

/-- C9: every mutation of the package set — adding packages through the add
path, or removing packages successfully — leaves the manifest with an empty
lockFingerprint, the needs-lock state. -/
theorem mutation_clears_lockfile_hash (proj : ProjModel)
    (entries : List (String × String)) (dev : Bool)
    (to_remove : List Pkg) (proj2 : ProjModel)
    (hne : entries ≠ [])
    (hrm : remove_packages proj to_remove = .ok proj2) :
    ((add_packages proj entries dev).lockfile_hash = "")
  ∧ proj2.lockfile_hash = "" := by
  constructor
  · cases entries with
    | nil => exact absurd rfl hne
    | cons e es => exact add_packages_cons_hash dev es proj e
  · unfold remove_packages at hrm
    cases hr : remove_list proj.packages to_remove with
    | error e => rw [hr] at hrm; exact absurd hrm (by simp)
    | ok rest =>
        rw [hr] at hrm
        injection hrm with h
        rw [← h]

/-- Witness for mutation_clears_lockfile_hash: one added package, an empty
removal list. -/
theorem mutation_clears_lockfile_hash_witness :
    ((add_packages projEx [("requests", "*")] false).lockfile_hash = "")
  ∧ projRmEx.lockfile_hash = "" :=
  mutation_clears_lockfile_hash projEx [("requests", "*")] false [] projRmEx
    (by decide) (by rfl)
